import Mathlib

/-!
Shallow embedding of the floorspace project service of this repository:
the five Lambda request handlers (createUpdateProject, listProjects,
getProject, deleteProject, uploadFloorspace) modelled as pure functions
over an explicit store state (a DynamoDB-like table keyed by
(userId, projectId) and an S3-like bucket keyed by an object path),
together with theorems settling the specification claims.

Modelling conventions:
- `new Date().toISOString()` is modelled by a clock stream
  `clock : Nat → String`; the n-th call of a handler reads `clock n`.
- `randomUUID()` is passed in as a `uuid : String` parameter.
- `getSignedUrl` is passed in as a `presign : String → String` parameter
  (presigning is a local computation that does not consult the bucket).
- An HTTP request body is `Option (Option β)`: `none` means the body is
  absent or the empty string (both falsy under the source's `!event.body`
  check), `some none` means a body that fails `JSON.parse`, and
  `some (some b)` a body that parses to `b`.
- Handlers return the response, the final store state, and the ordered
  trace of store calls they issued.
-/

/-- A JSON value, as produced by `JSON.parse` of a request body.
Numbers are modelled as integers (the claims only involve `0`). -/
inductive Json where
  | null : Json
  | bool : Bool → Json
  | num : Int → Json
  | str : String → Json
  | arr : List Json → Json
  | obj : List (String × Json) → Json

/-- JavaScript truthiness of a JSON value: `null`, `false`, `0` and the
empty string are falsy; arrays and objects are always truthy. -/
def jsTruthy : Json → Bool
  | .null => false
  | .bool b => b
  | .num n => n != 0
  | .str s => s != ""
  | .arr _ => true
  | .obj _ => true

/-- Truthiness of `obj.field` where the field may be absent (`undefined`). -/
def jsTruthyOpt : Option Json → Bool
  | none => false
  | some v => jsTruthy v

/-- Property access `j.k` on a parsed JSON value: a lookup that yields
`undefined` (here `none`) unless `j` is an object with key `k`. -/
def jsonField? (j : Json) (k : String) : Option Json :=
  match j with
  | .obj fields => (fields.find? (fun p => p.1 == k)).map Prod.snd
  | _ => none

/-- Escaping of one character inside a JSON string literal, as
`JSON.stringify` performs it. -/
def escapeChar (c : Char) : String :=
  if c = '"' then "\\\""
  else if c = '\\' then "\\\\"
  else if c = '\n' then "\\n"
  else if c = '\t' then "\\t"
  else if c = '\r' then "\\r"
  else String.singleton c

/-- Escaping of a JSON string literal body. -/
def escapeString (s : String) : String :=
  String.join (s.toList.map escapeChar)

mutual

/-- `JSON.stringify` (no indentation), restricted to the `Json` model. -/
def serializeJson : Json → String
  | .null => "null"
  | .bool b => if b then "true" else "false"
  | .num n => toString n
  | .str s => "\"" ++ escapeString s ++ "\""
  | .arr xs => "[" ++ serializeElems xs ++ "]"
  | .obj fs => "\x7b" ++ serializeMembers fs ++ "\x7d"

/-- Comma-separated serialization of array elements. -/
def serializeElems : List Json → String
  | [] => ""
  | [x] => serializeJson x
  | x :: y :: xs => serializeJson x ++ "," ++ serializeElems (y :: xs)

/-- Comma-separated serialization of object members. -/
def serializeMembers : List (String × Json) → String
  | [] => ""
  | [kv] => "\"" ++ escapeString kv.1 ++ "\":" ++ serializeJson kv.2
  | kv :: kv2 :: fs =>
      "\"" ++ escapeString kv.1 ++ "\":" ++ serializeJson kv.2 ++ "," ++
        serializeMembers (kv2 :: fs)

end

/-- The `Project` item shape stored in the DynamoDB table (interface
`Project` of the handler sources). `description` is stored as `''` when
absent, which is how `createUpdateProject` always writes it. -/
structure Project where
  userId : String
  projectId : String
  name : String
  description : String
  createdAt : String
  updatedAt : String
  s3Key : String
deriving DecidableEq

/-- The DynamoDB table: a list of items, at most one per key
`(userId, projectId)` in reachable states. -/
abbrev Table := List Project

/-- The S3 bucket: object key to object body. -/
abbrev Bucket := List (String × String)

/-- `GetCommand` with `Key: \x7buserId, projectId\x7d`: DynamoDB returns the
item whose key attributes equal the requested key, if any. -/
def dynamoGet (tbl : Table) (userId projectId : String) : Option Project :=
  tbl.find? (fun r => r.userId == userId && r.projectId == projectId)

/-- `PutCommand`: replace (or insert) the item with the given key. -/
def dynamoPut (tbl : Table) (item : Project) : Table :=
  item :: tbl.filter (fun r => !(r.userId == item.userId && r.projectId == item.projectId))

/-- `DeleteCommand`: remove the item with the given key. -/
def dynamoDelete (tbl : Table) (userId projectId : String) : Table :=
  tbl.filter (fun r => !(r.userId == userId && r.projectId == projectId))

/-- `UpdateCommand` with `SET updatedAt = :updatedAt`: a targeted
single-field update of the addressed item, leaving every other field and
every other item unchanged. (DynamoDB would upsert a bare key item when
the key is absent; every use in the sources follows a successful get, so
the absent-key case is unreachable and modelled as a no-op.) -/
def dynamoSetUpdatedAt (tbl : Table) (userId projectId updatedAt : String) : Table :=
  tbl.map (fun r =>
    if r.userId == userId && r.projectId == projectId then
      { r with updatedAt := updatedAt }
    else r)

/-- `QueryCommand` with `KeyConditionExpression: userId = :userId`. -/
def dynamoQueryByUser (tbl : Table) (userId : String) : List Project :=
  tbl.filter (fun r => r.userId == userId)

/-- `PutObjectCommand`: write (or overwrite) the object at `key`. -/
def s3Put (bkt : Bucket) (key body : String) : Bucket :=
  (key, body) :: bkt.filter (fun kv => kv.1 != key)

/-- `DeleteObjectCommand`: remove the object at `key`. -/
def s3Delete (bkt : Bucket) (key : String) : Bucket :=
  bkt.filter (fun kv => kv.1 != key)

/-- Body of the object stored at `key`, if any. -/
def s3Get? (bkt : Bucket) (key : String) : Option String :=
  (bkt.find? (fun kv => kv.1 == key)).map Prod.snd

/-- Combined state of the two external stores. -/
structure StoreState where
  table : Table
  bucket : Bucket
deriving DecidableEq

/-- One store call issued by a handler, in program order. -/
inductive Effect where
  | dynamoGetE : String → String → Effect
  | dynamoPutE : Project → Effect
  | dynamoDeleteE : String → String → Effect
  | dynamoUpdateE : String → String → String → Effect
  | dynamoQueryE : String → Effect
  | s3PutE : String → String → Effect
  | s3DeleteE : String → Effect
  | s3PresignE : String → Effect
deriving DecidableEq

/-- An HTTP response: status code plus the JSON document that the source
passes to `JSON.stringify` for the body. -/
structure Response where
  statusCode : Nat
  body : Json

/-- Uniform error body `\x7berror: \x7bcode, message\x7d\x7d`. -/
def errorResponse (statusCode : Nat) (code message : String) : Response :=
  { statusCode := statusCode,
    body := .obj [("error", .obj [("code", .str code), ("message", .str message)])] }

/-- What a handler invocation produces: the response, the final store
state, and the ordered trace of store calls. -/
structure HandlerResult where
  response : Response
  state : StoreState
  effects : List Effect

/-- JavaScript falsiness of an optional string (`undefined` or `''`). -/
def jsStrFalsy : Option String → Bool
  | none => true
  | some s => s == ""

/-- The derived blob path `owner/recordId/floorspace.json`, as computed
inline at each use site in the sources. -/
def s3KeyFor (userId projectId : String) : String :=
  userId ++ "/" ++ projectId ++ "/floorspace.json"

/-- `project.s3Key || s3KeyFor userId projectId` — the key actually used
by getProject, deleteProject and uploadFloorspace. -/
def effectiveS3Key (project : Project) (userId projectId : String) : String :=
  if project.s3Key == "" then s3KeyFor userId projectId else project.s3Key

/-- The `ProjectInput` body shape of `createUpdateProject`
(`\x7bname, description?\x7d`), with fields possibly absent. -/
structure ProjectInput where
  name : Option String
  description : Option String

/-- JavaScript `trim()`: leading and trailing whitespace removed,
modelled structurally over the character list so that it evaluates. -/
def jsTrim (s : String) : String :=
  ⟨((s.data.dropWhile Char.isWhitespace).reverse.dropWhile Char.isWhitespace).reverse⟩

/-- The name validation `!projectInput.name || projectInput.name.trim().length === 0`. -/
def invalidName : Option String → Bool
  | none => true
  | some n => n == "" || jsTrim n == ""

/-- The stored description `projectInput.description?.trim() || ''`. -/
def descValue : Option String → String
  | none => ""
  | some d => if jsTrim d == "" then "" else jsTrim d

/-- The fixed empty floorspace document written on creation. -/
def emptyFloorspaceJson : Json :=
  .obj [("version", .str "1.0"),
        ("stories", .arr []),
        ("building_units", .arr []),
        ("thermal_zones", .arr []),
        ("space_types", .arr []),
        ("construction_sets", .arr [])]

/-- Event for getProject and deleteProject: the `projectId` path
parameter and the authorizer claim `sub`. -/
structure RecordIdEvent where
  pathProjectId : Option String
  authSub : Option String

/-- Event for createUpdateProject. -/
structure CreateUpdateEvent where
  authSub : Option String
  body : Option (Option ProjectInput)
  pathProjectId : Option String

/-- Event for uploadFloorspace; the parsed body is kept as raw JSON
because the handler probes it dynamically. -/
structure UploadEvent where
  pathProjectId : Option String
  authSub : Option String
  body : Option (Option Json)

/-- Event for listProjects. -/
structure ListEvent where
  authSub : Option String

/-- The getProject handler (src/unnamed/part_015). -/
def getProjectHandler (presign : String → String) (ev : RecordIdEvent)
    (st : StoreState) : HandlerResult :=
  if jsStrFalsy ev.pathProjectId then
    ⟨errorResponse 400 "VALIDATION_ERROR" "Project ID is required", st, []⟩
  else
    let projectId := ev.pathProjectId.getD ""
    if jsStrFalsy ev.authSub then
      ⟨errorResponse 401 "UNAUTHORIZED" "User ID not found in token", st, []⟩
    else
      let userId := ev.authSub.getD ""
      match dynamoGet st.table userId projectId with
      | none =>
          ⟨errorResponse 404 "NOT_FOUND" "Project not found", st,
            [.dynamoGetE userId projectId]⟩
      | some project =>
          if project.userId != userId then
            ⟨errorResponse 403 "FORBIDDEN" "You don\x27t have permission to access this resource",
              st, [.dynamoGetE userId projectId]⟩
          else
            let s3Key := effectiveS3Key project userId projectId
            let presignedUrl := presign s3Key
            ⟨{ statusCode := 200,
               body := .obj [("projectId", .str project.projectId),
                             ("name", .str project.name),
                             ("description", .str project.description),
                             ("createdAt", .str project.createdAt),
                             ("updatedAt", .str project.updatedAt),
                             ("floorspaceUrl", .str presignedUrl)] },
             st, [.dynamoGetE userId projectId, .s3PresignE s3Key]⟩

/-- The deleteProject handler (src/backend/src/functions/deleteProject.ts). -/
def deleteProjectHandler (ev : RecordIdEvent) (st : StoreState) : HandlerResult :=
  if jsStrFalsy ev.pathProjectId then
    ⟨errorResponse 400 "VALIDATION_ERROR" "Project ID is required", st, []⟩
  else
    let projectId := ev.pathProjectId.getD ""
    if jsStrFalsy ev.authSub then
      ⟨errorResponse 401 "UNAUTHORIZED" "User ID not found in token", st, []⟩
    else
      let userId := ev.authSub.getD ""
      match dynamoGet st.table userId projectId with
      | none =>
          ⟨errorResponse 404 "NOT_FOUND" "Project not found", st,
            [.dynamoGetE userId projectId]⟩
      | some project =>
          if project.userId != userId then
            ⟨errorResponse 403 "FORBIDDEN" "You don\x27t have permission to access this resource",
              st, [.dynamoGetE userId projectId]⟩
          else
            let s3Key := effectiveS3Key project userId projectId
            let bucket1 := s3Delete st.bucket s3Key
            let table1 := dynamoDelete st.table userId projectId
            ⟨{ statusCode := 200,
               body := .obj [("success", .bool true),
                             ("message", .str "Project deleted successfully")] },
             ⟨table1, bucket1⟩,
             [.dynamoGetE userId projectId, .s3DeleteE s3Key,
              .dynamoDeleteE userId projectId]⟩

/-- The listProjects handler (second file of
src/backend/src/functions/createUpdateProject.ts). -/
def listProjectsHandler (ev : ListEvent) (st : StoreState) : HandlerResult :=
  if jsStrFalsy ev.authSub then
    ⟨errorResponse 401 "UNAUTHORIZED" "User ID not found in token", st, []⟩
  else
    let userId := ev.authSub.getD ""
    let items := dynamoQueryByUser st.table userId
    ⟨{ statusCode := 200,
       body := .obj [("projects",
         .arr (items.map (fun p =>
           .obj [("projectId", .str p.projectId),
                 ("name", .str p.name),
                 ("description", .str p.description),
                 ("createdAt", .str p.createdAt),
                 ("updatedAt", .str p.updatedAt)])))] },
     st, [.dynamoQueryE userId]⟩

/-- The Item written by the PutCommand of createUpdateProject: trimmed
name, stored description, and the derived `s3Key`. -/
def createUpdateItem (userId projectId nameRaw desc createdAt updatedAt : String) : Project :=
  ⟨userId, projectId, jsTrim nameRaw, desc, createdAt, updatedAt, s3KeyFor userId projectId⟩

/-- Common tail of createUpdateProject from the computation of
`updatedAt` and `s3Key` to the response: the DynamoDB put, the
conditional S3 write of the empty document, and the 201/200 response. -/
def createUpdateFinish (userId projectId nameRaw desc createdAt updatedAt : String)
    (isNewProject : Bool) (st : StoreState) (effs : List Effect) : HandlerResult :=
  let s3Key := s3KeyFor userId projectId
  let item : Project :=
    createUpdateItem userId projectId nameRaw desc createdAt updatedAt
  let table1 := dynamoPut st.table item
  let respBody : Json :=
    .obj [("projectId", .str projectId),
          ("name", .str (jsTrim nameRaw)),
          ("description", .str desc),
          ("createdAt", .str createdAt),
          ("updatedAt", .str updatedAt)]
  if isNewProject then
    let blobBody := serializeJson emptyFloorspaceJson
    let bucket1 := s3Put st.bucket s3Key blobBody
    ⟨{ statusCode := 201, body := respBody },
     ⟨table1, bucket1⟩,
     effs ++ [.dynamoPutE item, .s3PutE s3Key blobBody]⟩
  else
    ⟨{ statusCode := 200, body := respBody },
     ⟨table1, st.bucket⟩,
     effs ++ [.dynamoPutE item]⟩

/-- The createUpdateProject handler
(src/backend/src/functions/createUpdateProject.ts). `uuid` stands for
`randomUUID()` and `clock n` for the n-th `new Date().toISOString()`
call performed by this invocation. -/
def createUpdateHandler (uuid : String) (clock : Nat → String)
    (ev : CreateUpdateEvent) (st : StoreState) : HandlerResult :=
  if jsStrFalsy ev.authSub then
    ⟨errorResponse 401 "UNAUTHORIZED" "User ID not found in token", st, []⟩
  else
    let userId := ev.authSub.getD ""
    match ev.body with
    | none =>
        ⟨errorResponse 400 "VALIDATION_ERROR" "Request body is required", st, []⟩
    | some none =>
        ⟨errorResponse 400 "VALIDATION_ERROR" "Invalid JSON in request body", st, []⟩
    | some (some projectInput) =>
        if invalidName projectInput.name then
          ⟨errorResponse 400 "VALIDATION_ERROR" "Project name is required", st, []⟩
        else
          let nameRaw := projectInput.name.getD ""
          let desc := descValue projectInput.description
          if jsStrFalsy ev.pathProjectId || ev.pathProjectId == some "new" then
            createUpdateFinish userId uuid nameRaw desc (clock 0) (clock 1) true st []
          else
            let projectId := ev.pathProjectId.getD ""
            match dynamoGet st.table userId projectId with
            | some existing =>
                if existing.userId != userId then
                  ⟨errorResponse 403 "FORBIDDEN" "You don\x27t have permission to access this resource",
                    st, [.dynamoGetE userId projectId]⟩
                else
                  createUpdateFinish userId projectId nameRaw desc
                    existing.createdAt (clock 0) false st
                    [.dynamoGetE userId projectId]
            | none =>
                createUpdateFinish userId projectId nameRaw desc
                  (clock 0) (clock 1) true st
                  [.dynamoGetE userId projectId]

/-- The uploadFloorspace handler
(src/backend/src/functions/uploadFloorspace.ts). `now` stands for the
single `new Date().toISOString()` call. The `JSON.stringify` probe of
the payload never throws on values of the `Json` model, so its catch
branch is unreachable here. -/
def uploadFloorspaceHandler (now : String) (ev : UploadEvent)
    (st : StoreState) : HandlerResult :=
  if jsStrFalsy ev.pathProjectId then
    ⟨errorResponse 400 "VALIDATION_ERROR" "Project ID is required", st, []⟩
  else
    let projectId := ev.pathProjectId.getD ""
    if jsStrFalsy ev.authSub then
      ⟨errorResponse 401 "UNAUTHORIZED" "User ID not found in token", st, []⟩
    else
      let userId := ev.authSub.getD ""
      match ev.body with
      | none =>
          ⟨errorResponse 400 "VALIDATION_ERROR" "Request body is required", st, []⟩
      | some none =>
          ⟨errorResponse 400 "VALIDATION_ERROR" "Invalid JSON in request body", st, []⟩
      | some (some parsed) =>
          if !(jsTruthyOpt (jsonField? parsed "floorspaceJson")) then
            ⟨errorResponse 400 "VALIDATION_ERROR" "floorspaceJson is required", st, []⟩
          else
            let floorspaceJson := (jsonField? parsed "floorspaceJson").getD .null
            match dynamoGet st.table userId projectId with
            | none =>
                ⟨errorResponse 404 "NOT_FOUND" "Project not found", st,
                  [.dynamoGetE userId projectId]⟩
            | some project =>
                if project.userId != userId then
                  ⟨errorResponse 403 "FORBIDDEN" "You don\x27t have permission to access this resource",
                    st, [.dynamoGetE userId projectId]⟩
                else
                  let s3Key := effectiveS3Key project userId projectId
                  let blobBody := serializeJson floorspaceJson
                  let bucket1 := s3Put st.bucket s3Key blobBody
                  let table1 := dynamoSetUpdatedAt st.table userId projectId now
                  ⟨{ statusCode := 200,
                     body := .obj [("success", .bool true),
                                   ("updatedAt", .str now),
                                   ("message", .str "Floorspace JSON uploaded successfully")] },
                   ⟨table1, bucket1⟩,
                   [.dynamoGetE userId projectId, .s3PutE s3Key blobBody,
                    .dynamoUpdateE userId projectId now]⟩

/-! ### Store lemmas -/

/-- An item returned by an owner-keyed GetCommand carries that owner and
id as its key attributes. -/
theorem dynamoGet_some_userId {tbl : Table} {u i : String} {r : Project}
    (h : dynamoGet tbl u i = some r) : r.userId = u ∧ r.projectId = i := by
  simp only [dynamoGet] at h
  have hp := List.find?_some h
  simpa using hp

/-- After a DeleteCommand for a key, a GetCommand for that key misses. -/
theorem dynamoGet_dynamoDelete (tbl : Table) (u i : String) :
    dynamoGet (dynamoDelete tbl u i) u i = none := by
  simp only [dynamoGet, dynamoDelete, List.find?_eq_none, List.mem_filter]
  rintro r ⟨-, hq⟩
  simp only [Bool.not_eq_true'] at hq
  simp [hq]

/-- After a DeleteObjectCommand for a key, the bucket has no object
there. -/
theorem s3Get_s3Delete (bkt : Bucket) (k : String) :
    s3Get? (s3Delete bkt k) k = none := by
  have h : (s3Delete bkt k).find? (fun kv => kv.1 == k) = none := by
    simp only [s3Delete, List.find?_eq_none, List.mem_filter]
    rintro kv ⟨-, hq⟩
    simp only [bne_iff_ne, ne_eq] at hq
    simp [hq]
  simp [s3Get?, h]

/-- The targeted `SET updatedAt` update rewrites exactly the updatedAt
field of the addressed item and nothing else. -/
theorem dynamoGet_dynamoSetUpdatedAt (tbl : Table) (u i t : String) :
    dynamoGet (dynamoSetUpdatedAt tbl u i t) u i
      = (dynamoGet tbl u i).map (fun r => { r with updatedAt := t }) := by
  induction tbl with
  | nil => rfl
  | cons r rs ih =>
    unfold dynamoGet dynamoSetUpdatedAt at ih ⊢
    rw [List.map_cons]
    by_cases h : (r.userId == u && r.projectId == i) = true
    · rw [if_pos h]
      rw [List.find?_cons_of_pos (p := fun x : Project => x.userId == u && x.projectId == i) _ (by exact h),
          List.find?_cons_of_pos (p := fun x : Project => x.userId == u && x.projectId == i) _ h]
      rfl
    · rw [if_neg h]
      rw [List.find?_cons_of_neg (p := fun x : Project => x.userId == u && x.projectId == i) _ (by exact h),
          List.find?_cons_of_neg (p := fun x : Project => x.userId == u && x.projectId == i) _ h]
      exact ih

/-! ### Claim theorems -/

/-- C9: in getProject, deleteProject and uploadFloorspace the
post-lookup ownership check is dead code: the DynamoDB lookup is keyed
by the caller own subject, so any item it returns has that subject as
its owner, and the handlers can never produce a 403 response. -/
theorem c9_handlers_never_return_403 :
    (∀ presign ev st, (getProjectHandler presign ev st).response.statusCode ≠ 403) ∧
    (∀ ev st, (deleteProjectHandler ev st).response.statusCode ≠ 403) ∧
    (∀ now ev st, (uploadFloorspaceHandler now ev st).response.statusCode ≠ 403) := by
  refine ⟨?_, ?_, ?_⟩
  · intro presign ev st
    simp only [getProjectHandler]
    split
    · simp [errorResponse]
    · split
      · simp [errorResponse]
      · split
        · simp [errorResponse]
        · next project heq =>
            obtain ⟨hru, -⟩ := dynamoGet_some_userId heq
            split
            · next hcond => rw [hru] at hcond; simp at hcond
            · simp
  · intro ev st
    simp only [deleteProjectHandler]
    split
    · simp [errorResponse]
    · split
      · simp [errorResponse]
      · split
        · simp [errorResponse]
        · next project heq =>
            obtain ⟨hru, -⟩ := dynamoGet_some_userId heq
            split
            · next hcond => rw [hru] at hcond; simp at hcond
            · simp
  · intro now ev st
    simp only [uploadFloorspaceHandler]
    split
    · simp [errorResponse]
    · split
      · simp [errorResponse]
      · split
        · simp [errorResponse]
        · simp [errorResponse]
        · split
          · simp [errorResponse]
          · split
            · simp [errorResponse]
            · next project heq =>
                obtain ⟨hru, -⟩ := dynamoGet_some_userId heq
                split
                · next hcond => rw [hru] at hcond; simp at hcond
                · simp

/-- C1: the cross-owner fallback lookup required by the spec does not
exist in the code. With a record owned by alice under id p1, caller bob
gets 404 NOT_FOUND from get-one, delete and upload-blob after a single
lookup keyed by bob own subject (no second lookup by recordId alone
appears in the trace), and create-or-update with the concrete id p1
silently creates a fresh record for bob (201) — in every case the spec
mandates 403 Forbidden. -/
theorem c1_no_cross_owner_lookup_evaluation :
    (getProjectHandler (fun k => k) ⟨some "p1", some "bob"⟩
        ⟨[⟨"alice", "p1", "House", "", "T0", "T0", s3KeyFor "alice" "p1"⟩],
         [(s3KeyFor "alice" "p1", serializeJson emptyFloorspaceJson)]⟩).response.statusCode = 404 ∧
    (getProjectHandler (fun k => k) ⟨some "p1", some "bob"⟩
        ⟨[⟨"alice", "p1", "House", "", "T0", "T0", s3KeyFor "alice" "p1"⟩],
         [(s3KeyFor "alice" "p1", serializeJson emptyFloorspaceJson)]⟩).effects
      = [Effect.dynamoGetE "bob" "p1"] ∧
    (deleteProjectHandler ⟨some "p1", some "bob"⟩
        ⟨[⟨"alice", "p1", "House", "", "T0", "T0", s3KeyFor "alice" "p1"⟩],
         [(s3KeyFor "alice" "p1", serializeJson emptyFloorspaceJson)]⟩).response.statusCode = 404 ∧
    (deleteProjectHandler ⟨some "p1", some "bob"⟩
        ⟨[⟨"alice", "p1", "House", "", "T0", "T0", s3KeyFor "alice" "p1"⟩],
         [(s3KeyFor "alice" "p1", serializeJson emptyFloorspaceJson)]⟩).effects
      = [Effect.dynamoGetE "bob" "p1"] ∧
    (uploadFloorspaceHandler "T1"
        ⟨some "p1", some "bob", some (some (.obj [("floorspaceJson", .obj [("version", .str "1.0")])]))⟩
        ⟨[⟨"alice", "p1", "House", "", "T0", "T0", s3KeyFor "alice" "p1"⟩],
         [(s3KeyFor "alice" "p1", serializeJson emptyFloorspaceJson)]⟩).response.statusCode = 404 ∧
    (createUpdateHandler "u-1" (fun _ => "T1")
        ⟨some "bob", some (some ⟨some "Intruder", none⟩), some "p1"⟩
        ⟨[⟨"alice", "p1", "House", "", "T0", "T0", s3KeyFor "alice" "p1"⟩],
         [(s3KeyFor "alice" "p1", serializeJson emptyFloorspaceJson)]⟩).response.statusCode = 201 := by
  refine ⟨rfl, rfl, rfl, rfl, rfl, by decide⟩

/-- C6 counterexample: a request whose call context lacks a verified
subject AND whose recordId path parameter is missing gets 400, not 401,
from get-one, delete and upload-blob: their recordId check precedes
identity extraction. -/
theorem c6_counterexample_400_before_401 :
    (getProjectHandler (fun k => k) ⟨none, none⟩ ⟨[], []⟩).response.statusCode = 400 ∧
    (deleteProjectHandler ⟨none, none⟩ ⟨[], []⟩).response.statusCode = 400 ∧
    (uploadFloorspaceHandler "T0" ⟨none, none, none⟩ ⟨[], []⟩).response.statusCode = 400 := by
  refine ⟨rfl, rfl, rfl⟩

/-- C6 (amended): a missing verified subject yields 401 with no store
call — unconditionally in create-or-update and list-by-owner, where
identity extraction is the first check, and in get-one, delete and
upload-blob whenever the recordId path parameter is present, since
there the recordId presence check runs first. -/
theorem c6_unauthenticated_401 :
    (∀ uuid clock ev st, jsStrFalsy ev.authSub = true →
        (createUpdateHandler uuid clock ev st).response.statusCode = 401 ∧
        (createUpdateHandler uuid clock ev st).state = st ∧
        (createUpdateHandler uuid clock ev st).effects = []) ∧
    (∀ ev st, jsStrFalsy ev.authSub = true →
        (listProjectsHandler ev st).response.statusCode = 401 ∧
        (listProjectsHandler ev st).state = st ∧
        (listProjectsHandler ev st).effects = []) ∧
    (∀ presign ev st, jsStrFalsy ev.pathProjectId = false → jsStrFalsy ev.authSub = true →
        (getProjectHandler presign ev st).response.statusCode = 401 ∧
        (getProjectHandler presign ev st).state = st ∧
        (getProjectHandler presign ev st).effects = []) ∧
    (∀ ev st, jsStrFalsy ev.pathProjectId = false → jsStrFalsy ev.authSub = true →
        (deleteProjectHandler ev st).response.statusCode = 401 ∧
        (deleteProjectHandler ev st).state = st ∧
        (deleteProjectHandler ev st).effects = []) ∧
    (∀ now ev st, jsStrFalsy ev.pathProjectId = false → jsStrFalsy ev.authSub = true →
        (uploadFloorspaceHandler now ev st).response.statusCode = 401 ∧
        (uploadFloorspaceHandler now ev st).state = st ∧
        (uploadFloorspaceHandler now ev st).effects = []) := by
  refine ⟨?_, ?_, ?_, ?_, ?_⟩
  · intro uuid clock ev st h
    simp [createUpdateHandler, h, errorResponse]
  · intro ev st h
    simp [listProjectsHandler, h, errorResponse]
  · intro presign ev st hp h
    simp [getProjectHandler, hp, h, errorResponse]
  · intro ev st hp h
    simp [deleteProjectHandler, hp, h, errorResponse]
  · intro now ev st hp h
    simp [uploadFloorspaceHandler, hp, h, errorResponse]

/-- C6 witness: concrete unauthenticated calls hit the 401 branch. -/
theorem c6_unauthenticated_witness :
    (createUpdateHandler "u-1" (fun _ => "T0") ⟨none, none, none⟩ ⟨[], []⟩).response.statusCode = 401 ∧
    (deleteProjectHandler ⟨some "p1", none⟩ ⟨[], []⟩).response.statusCode = 401 :=
  ⟨(c6_unauthenticated_401.1 "u-1" (fun _ => "T0") ⟨none, none, none⟩ ⟨[], []⟩ (by decide)).1,
   (c6_unauthenticated_401.2.2.2.1 ⟨some "p1", none⟩ ⟨[], []⟩ (by decide) (by decide)).1⟩

/-- C7: a create-or-update call (authenticated, with a parsed body)
whose name is empty or whitespace-only after trimming is rejected with
400 VALIDATION_ERROR before any store call: the state is unchanged and
the trace is empty. -/
theorem c7_invalid_title_rejected (uuid : String) (clock : Nat → String)
    (u : String) (hu : u ≠ "") (pin : ProjectInput) (pid? : Option String)
    (t : String) (hname : pin.name = some t) (ht : jsTrim t = "")
    (st : StoreState) :
    (createUpdateHandler uuid clock ⟨some u, some (some pin), pid?⟩ st).response
        = errorResponse 400 "VALIDATION_ERROR" "Project name is required" ∧
    (createUpdateHandler uuid clock ⟨some u, some (some pin), pid?⟩ st).state = st ∧
    (createUpdateHandler uuid clock ⟨some u, some (some pin), pid?⟩ st).effects = [] := by
  have hin : invalidName pin.name = true := by
    rw [hname]
    simp [invalidName, ht]
  simp [createUpdateHandler, jsStrFalsy, hu, hin]

/-- C7 witness: a whitespace-only name is rejected with no write. -/
theorem c7_invalid_title_witness :
    (createUpdateHandler "u-1" (fun _ => "T0")
        ⟨some "alice", some (some ⟨some "   ", none⟩), some "new"⟩ ⟨[], []⟩).response
      = errorResponse 400 "VALIDATION_ERROR" "Project name is required" ∧
    (createUpdateHandler "u-1" (fun _ => "T0")
        ⟨some "alice", some (some ⟨some "   ", none⟩), some "new"⟩ ⟨[], []⟩).state = ⟨[], []⟩ ∧
    (createUpdateHandler "u-1" (fun _ => "T0")
        ⟨some "alice", some (some ⟨some "   ", none⟩), some "new"⟩ ⟨[], []⟩).effects = [] :=
  c7_invalid_title_rejected "u-1" (fun _ => "T0") "alice" (by decide)
    ⟨some "   ", none⟩ (some "new") "   " rfl (by decide) ⟨[], []⟩

/-- C10: uploadFloorspace tests presence of `floorspaceJson` with a
JavaScript truthiness check, so a body whose `floorspaceJson` field is
a falsy JSON value (false, 0, the empty string, or null) is rejected
with 400 VALIDATION_ERROR and no store call, even though the field is
present. -/
theorem c10_falsy_floorspaceJson_rejected (now : String) (u pid : String)
    (hu : u ≠ "") (hp : pid ≠ "") (j v : Json)
    (hf : jsonField? j "floorspaceJson" = some v) (hv : jsTruthy v = false)
    (st : StoreState) :
    (uploadFloorspaceHandler now ⟨some pid, some u, some (some j)⟩ st).response
        = errorResponse 400 "VALIDATION_ERROR" "floorspaceJson is required" ∧
    (uploadFloorspaceHandler now ⟨some pid, some u, some (some j)⟩ st).state = st ∧
    (uploadFloorspaceHandler now ⟨some pid, some u, some (some j)⟩ st).effects = [] := by
  simp [uploadFloorspaceHandler, jsStrFalsy, hu, hp, hf, jsTruthyOpt, hv]

/-- C10 witness: the four falsy JSON payload values are all rejected
even though present; witnessed here with `floorspaceJson: false`. -/
theorem c10_falsy_floorspaceJson_witness :
    (uploadFloorspaceHandler "T0"
        ⟨some "p1", some "alice", some (some (.obj [("floorspaceJson", .bool false)]))⟩
        ⟨[], []⟩).response
      = errorResponse 400 "VALIDATION_ERROR" "floorspaceJson is required" ∧
    (uploadFloorspaceHandler "T0"
        ⟨some "p1", some "alice", some (some (.obj [("floorspaceJson", .bool false)]))⟩
        ⟨[], []⟩).state = ⟨[], []⟩ ∧
    (uploadFloorspaceHandler "T0"
        ⟨some "p1", some "alice", some (some (.obj [("floorspaceJson", .bool false)]))⟩
        ⟨[], []⟩).effects = [] :=
  c10_falsy_floorspaceJson_rejected "T0" "alice" "p1" (by decide) (by decide)
    (.obj [("floorspaceJson", .bool false)]) (.bool false) rfl rfl ⟨[], []⟩

/-- Reading back an object just written at a key returns its body. -/
theorem s3Get_s3Put (bkt : Bucket) (k b : String) :
    s3Get? (s3Put bkt k b) k = some b := by
  simp [s3Get?, s3Put, List.find?]

/-- C3: for an existing record owned by the caller, delete issues the
S3 object delete first and the DynamoDB record delete second, responds
200, and afterwards the record is absent (a subsequent get-one returns
404) and the bucket no longer holds an object at the record blob
path. -/
theorem c3_delete_blob_then_record (u pid : String) (hu : u ≠ "") (hp : pid ≠ "")
    (st : StoreState) (r : Project) (h : dynamoGet st.table u pid = some r)
    (presign : String → String) :
    (deleteProjectHandler ⟨some pid, some u⟩ st).response.statusCode = 200 ∧
    (deleteProjectHandler ⟨some pid, some u⟩ st).effects
      = [.dynamoGetE u pid, .s3DeleteE (effectiveS3Key r u pid), .dynamoDeleteE u pid] ∧
    (deleteProjectHandler ⟨some pid, some u⟩ st).state.table = dynamoDelete st.table u pid ∧
    (deleteProjectHandler ⟨some pid, some u⟩ st).state.bucket
      = s3Delete st.bucket (effectiveS3Key r u pid) ∧
    dynamoGet (deleteProjectHandler ⟨some pid, some u⟩ st).state.table u pid = none ∧
    s3Get? (deleteProjectHandler ⟨some pid, some u⟩ st).state.bucket (effectiveS3Key r u pid) = none ∧
    (getProjectHandler presign ⟨some pid, some u⟩
        (deleteProjectHandler ⟨some pid, some u⟩ st).state).response.statusCode = 404 := by
  obtain ⟨hru, -⟩ := dynamoGet_some_userId h
  have hdd := dynamoGet_dynamoDelete st.table u pid
  have hsd := s3Get_s3Delete st.bucket (effectiveS3Key r u pid)
  simp [deleteProjectHandler, getProjectHandler, jsStrFalsy, hu, hp, h, hru, hdd, hsd,
    errorResponse]

/-- C3 witness: deleting a concrete owned record. -/
theorem c3_delete_witness :
    (deleteProjectHandler ⟨some "p1", some "alice"⟩
        ⟨[⟨"alice", "p1", "House", "", "T0", "T0", s3KeyFor "alice" "p1"⟩],
         [(s3KeyFor "alice" "p1", serializeJson emptyFloorspaceJson)]⟩).response.statusCode = 200 ∧
    s3Get? (deleteProjectHandler ⟨some "p1", some "alice"⟩
        ⟨[⟨"alice", "p1", "House", "", "T0", "T0", s3KeyFor "alice" "p1"⟩],
         [(s3KeyFor "alice" "p1", serializeJson emptyFloorspaceJson)]⟩).state.bucket
      (effectiveS3Key ⟨"alice", "p1", "House", "", "T0", "T0", s3KeyFor "alice" "p1"⟩ "alice" "p1") = none ∧
    (getProjectHandler (fun k => k) ⟨some "p1", some "alice"⟩
        (deleteProjectHandler ⟨some "p1", some "alice"⟩
          ⟨[⟨"alice", "p1", "House", "", "T0", "T0", s3KeyFor "alice" "p1"⟩],
           [(s3KeyFor "alice" "p1", serializeJson emptyFloorspaceJson)]⟩).state).response.statusCode = 404 := by
  have hmain := c3_delete_blob_then_record "alice" "p1" (by decide) (by decide)
    ⟨[⟨"alice", "p1", "House", "", "T0", "T0", s3KeyFor "alice" "p1"⟩],
     [(s3KeyFor "alice" "p1", serializeJson emptyFloorspaceJson)]⟩
    ⟨"alice", "p1", "House", "", "T0", "T0", s3KeyFor "alice" "p1"⟩ rfl (fun k => k)
  exact ⟨hmain.1, hmain.2.2.2.2.2.1, hmain.2.2.2.2.2.2⟩

/-- C4: a successful upload overwrites the blob at the record path with
the serialized payload, touches the record only through a targeted
`SET updatedAt` UpdateCommand (no whole-record put appears in the
trace), leaves every other field of the record and every other item
unchanged, and responds 200 carrying the new updatedAt. -/
theorem c4_upload_targeted_update (now u pid : String) (hu : u ≠ "") (hp : pid ≠ "")
    (j v : Json) (hf : jsonField? j "floorspaceJson" = some v) (hv : jsTruthy v = true)
    (st : StoreState) (r : Project) (h : dynamoGet st.table u pid = some r) :
    (uploadFloorspaceHandler now ⟨some pid, some u, some (some j)⟩ st).response.statusCode = 200 ∧
    (uploadFloorspaceHandler now ⟨some pid, some u, some (some j)⟩ st).response.body
      = .obj [("success", .bool true), ("updatedAt", .str now),
              ("message", .str "Floorspace JSON uploaded successfully")] ∧
    (uploadFloorspaceHandler now ⟨some pid, some u, some (some j)⟩ st).effects
      = [.dynamoGetE u pid, .s3PutE (effectiveS3Key r u pid) (serializeJson v),
         .dynamoUpdateE u pid now] ∧
    (uploadFloorspaceHandler now ⟨some pid, some u, some (some j)⟩ st).state.bucket
      = s3Put st.bucket (effectiveS3Key r u pid) (serializeJson v) ∧
    (uploadFloorspaceHandler now ⟨some pid, some u, some (some j)⟩ st).state.table
      = dynamoSetUpdatedAt st.table u pid now ∧
    s3Get? (uploadFloorspaceHandler now ⟨some pid, some u, some (some j)⟩ st).state.bucket
        (effectiveS3Key r u pid) = some (serializeJson v) ∧
    dynamoGet (uploadFloorspaceHandler now ⟨some pid, some u, some (some j)⟩ st).state.table u pid
      = some { r with updatedAt := now } := by
  obtain ⟨hru, -⟩ := dynamoGet_some_userId h
  have hupd := dynamoGet_dynamoSetUpdatedAt st.table u pid now
  have hsp := s3Get_s3Put st.bucket (effectiveS3Key r u pid) (serializeJson v)
  simp [uploadFloorspaceHandler, jsStrFalsy, hu, hp, hf, jsTruthyOpt, hv, h, hru, hupd, hsp]

/-- C4 witness: uploading a concrete payload to an owned record. -/
theorem c4_upload_witness :
    (uploadFloorspaceHandler "T2"
        ⟨some "p1", some "alice", some (some (.obj [("floorspaceJson", .obj [("version", .str "1.0")])]))⟩
        ⟨[⟨"alice", "p1", "House", "", "T0", "T1", s3KeyFor "alice" "p1"⟩], []⟩).response.statusCode = 200 ∧
    dynamoGet (uploadFloorspaceHandler "T2"
        ⟨some "p1", some "alice", some (some (.obj [("floorspaceJson", .obj [("version", .str "1.0")])]))⟩
        ⟨[⟨"alice", "p1", "House", "", "T0", "T1", s3KeyFor "alice" "p1"⟩], []⟩).state.table "alice" "p1"
      = some { (⟨"alice", "p1", "House", "", "T0", "T1", s3KeyFor "alice" "p1"⟩ : Project) with updatedAt := "T2" } := by
  have hmain := c4_upload_targeted_update "T2" "alice" "p1" (by decide) (by decide)
    (.obj [("floorspaceJson", .obj [("version", .str "1.0")])]) (.obj [("version", .str "1.0")])
    rfl rfl ⟨[⟨"alice", "p1", "House", "", "T0", "T1", s3KeyFor "alice" "p1"⟩], []⟩
    ⟨"alice", "p1", "House", "", "T0", "T1", s3KeyFor "alice" "p1"⟩ rfl
  exact ⟨hmain.1, hmain.2.2.2.2.2.2⟩

/-- C5: create-or-update with a concrete recordId that exists under
(subject, recordId) preserves the stored createdAt, stores the trimmed
new name and description with updatedAt set to the clock reading,
writes the record with a whole-record PutCommand, performs no Blob
Store call (the bucket and trace show none), and responds 200. -/
theorem c5_update_preserves_createdAt (uuid : String) (clock : Nat → String)
    (u pid : String) (hu : u ≠ "") (hp : pid ≠ "") (hnew : pid ≠ "new")
    (pin : ProjectInput) (hvalid : invalidName pin.name = false)
    (st : StoreState) (r : Project) (h : dynamoGet st.table u pid = some r) :
    (createUpdateHandler uuid clock ⟨some u, some (some pin), some pid⟩ st).response.statusCode = 200 ∧
    (createUpdateHandler uuid clock ⟨some u, some (some pin), some pid⟩ st).effects
      = [.dynamoGetE u pid,
         .dynamoPutE (createUpdateItem u pid (pin.name.getD "") (descValue pin.description)
           r.createdAt (clock 0))] ∧
    (createUpdateHandler uuid clock ⟨some u, some (some pin), some pid⟩ st).state.table
      = dynamoPut st.table (createUpdateItem u pid (pin.name.getD "") (descValue pin.description)
          r.createdAt (clock 0)) ∧
    (createUpdateHandler uuid clock ⟨some u, some (some pin), some pid⟩ st).state.bucket
      = st.bucket ∧
    (createUpdateItem u pid (pin.name.getD "") (descValue pin.description)
        r.createdAt (clock 0)).createdAt = r.createdAt := by
  obtain ⟨hru, -⟩ := dynamoGet_some_userId h
  simp [createUpdateHandler, createUpdateFinish, createUpdateItem, jsStrFalsy,
    hu, hp, hnew, hvalid, h, hru]

/-- C5 witness: updating a concrete owned record keeps its createdAt. -/
theorem c5_update_witness :
    (createUpdateHandler "u-1" (fun _ => "T2")
        ⟨some "alice", some (some ⟨some "  New name  ", some " d "⟩), some "p1"⟩
        ⟨[⟨"alice", "p1", "Old", "", "T0", "T1", s3KeyFor "alice" "p1"⟩], []⟩).response.statusCode = 200 ∧
    (createUpdateHandler "u-1" (fun _ => "T2")
        ⟨some "alice", some (some ⟨some "  New name  ", some " d "⟩), some "p1"⟩
        ⟨[⟨"alice", "p1", "Old", "", "T0", "T1", s3KeyFor "alice" "p1"⟩], []⟩).state.bucket = [] ∧
    (createUpdateItem "alice" "p1" ((⟨some "  New name  ", some " d "⟩ : ProjectInput).name.getD "")
        (descValue (⟨some "  New name  ", some " d "⟩ : ProjectInput).description)
        (⟨"alice", "p1", "Old", "", "T0", "T1", s3KeyFor "alice" "p1"⟩ : Project).createdAt
        ((fun _ => "T2") 0)).createdAt = "T0" := by
  have hmain := c5_update_preserves_createdAt "u-1" (fun _ => "T2") "alice" "p1"
    (by decide) (by decide) (by decide) ⟨some "  New name  ", some " d "⟩ (by decide)
    ⟨[⟨"alice", "p1", "Old", "", "T0", "T1", s3KeyFor "alice" "p1"⟩], []⟩
    ⟨"alice", "p1", "Old", "", "T0", "T1", s3KeyFor "alice" "p1"⟩ rfl
  exact ⟨hmain.1, hmain.2.2.2.1, hmain.2.2.2.2⟩

/-- C2 counterexample: createdAt and updatedAt come from two separate
clock reads (`new Date()` is called twice on the creation path), so
with a clock that advances between the two statements the created
record has createdAt different from updatedAt, against the claim that
they are equal. -/
theorem c2_counterexample_two_clock_reads :
    (createUpdateHandler "p-new" (fun n => if n == 0 then "T0" else "T1")
        ⟨some "alice", some (some ⟨some "House", none⟩), some "new"⟩
        ⟨[], []⟩).state.table
      = [⟨"alice", "p-new", "House", "", "T0", "T1", s3KeyFor "alice" "p-new"⟩] ∧
    (createUpdateHandler "p-new" (fun n => if n == 0 then "T0" else "T1")
        ⟨some "alice", some (some ⟨some "House", none⟩), some "new"⟩
        ⟨[], []⟩).response.statusCode = 201 ∧
    ("T0" : String) ≠ "T1" := by
  refine ⟨by decide, by decide, by decide⟩

/-- C2 (amended): on both creation paths of create-or-update (sentinel
or absent recordId, and concrete recordId not found under the caller)
the handler writes the record first — its createdAt and updatedAt being
two successive clock readings, equal exactly when the clock does not
advance between them — then writes the blob at
owner/recordId/floorspace.json with the serialized fixed empty
document, and responds 201; the serialized empty document is the exact
JSON text of the default payload. -/
theorem c2_creation_paths (uuid : String) (clock : Nat → String)
    (u : String) (hu : u ≠ "") (pin : ProjectInput)
    (hvalid : invalidName pin.name = false) (st : StoreState) :
    (∀ pid?, jsStrFalsy pid? = true ∨ pid? = some "new" →
      (createUpdateHandler uuid clock ⟨some u, some (some pin), pid?⟩ st).response.statusCode = 201 ∧
      (createUpdateHandler uuid clock ⟨some u, some (some pin), pid?⟩ st).effects
        = [.dynamoPutE (createUpdateItem u uuid (pin.name.getD "") (descValue pin.description)
              (clock 0) (clock 1)),
           .s3PutE (s3KeyFor u uuid) (serializeJson emptyFloorspaceJson)] ∧
      (createUpdateHandler uuid clock ⟨some u, some (some pin), pid?⟩ st).state.table
        = dynamoPut st.table (createUpdateItem u uuid (pin.name.getD "") (descValue pin.description)
            (clock 0) (clock 1)) ∧
      (createUpdateHandler uuid clock ⟨some u, some (some pin), pid?⟩ st).state.bucket
        = s3Put st.bucket (s3KeyFor u uuid) (serializeJson emptyFloorspaceJson) ∧
      s3Get? (createUpdateHandler uuid clock ⟨some u, some (some pin), pid?⟩ st).state.bucket
          (s3KeyFor u uuid) = some (serializeJson emptyFloorspaceJson) ∧
      (clock 0 = clock 1 →
        (createUpdateItem u uuid (pin.name.getD "") (descValue pin.description)
            (clock 0) (clock 1)).createdAt
          = (createUpdateItem u uuid (pin.name.getD "") (descValue pin.description)
              (clock 0) (clock 1)).updatedAt)) ∧
    (∀ pid, pid ≠ "" → pid ≠ "new" → dynamoGet st.table u pid = none →
      (createUpdateHandler uuid clock ⟨some u, some (some pin), some pid⟩ st).response.statusCode = 201 ∧
      (createUpdateHandler uuid clock ⟨some u, some (some pin), some pid⟩ st).effects
        = [.dynamoGetE u pid,
           .dynamoPutE (createUpdateItem u pid (pin.name.getD "") (descValue pin.description)
              (clock 0) (clock 1)),
           .s3PutE (s3KeyFor u pid) (serializeJson emptyFloorspaceJson)] ∧
      (createUpdateHandler uuid clock ⟨some u, some (some pin), some pid⟩ st).state.table
        = dynamoPut st.table (createUpdateItem u pid (pin.name.getD "") (descValue pin.description)
            (clock 0) (clock 1)) ∧
      (createUpdateHandler uuid clock ⟨some u, some (some pin), some pid⟩ st).state.bucket
        = s3Put st.bucket (s3KeyFor u pid) (serializeJson emptyFloorspaceJson)) ∧
    serializeJson emptyFloorspaceJson
      = "\x7b\"version\":\"1.0\",\"stories\":[],\"building_units\":[],\"thermal_zones\":[],\"space_types\":[],\"construction_sets\":[]\x7d" := by
  refine ⟨?_, ?_, by decide⟩
  · have hsp := s3Get_s3Put st.bucket (s3KeyFor u uuid) (serializeJson emptyFloorspaceJson)
    rintro pid? (hsent | rfl)
    · cases pid? with
      | none =>
          simp [createUpdateHandler, createUpdateFinish, createUpdateItem, jsStrFalsy,
            hu, hvalid, hsp]
      | some s =>
          have hs : s = "" := by simpa [jsStrFalsy] using hsent
          subst hs
          simp [createUpdateHandler, createUpdateFinish, createUpdateItem, jsStrFalsy,
            hu, hvalid, hsp]
    · simp [createUpdateHandler, createUpdateFinish, createUpdateItem, jsStrFalsy,
        hu, hvalid, hsp]
  · intro pid hp hnew hmiss
    simp [createUpdateHandler, createUpdateFinish, createUpdateItem, jsStrFalsy,
      hu, hp, hnew, hvalid, hmiss]

/-- C2 witness: creating a record with the sentinel id and a constant
clock, and creating one under a caller-supplied fresh id. -/
theorem c2_creation_witness :
    (createUpdateHandler "p-9" (fun _ => "T0")
        ⟨some "alice", some (some ⟨some "House", none⟩), some "new"⟩
        ⟨[], []⟩).response.statusCode = 201 ∧
    s3Get? (createUpdateHandler "p-9" (fun _ => "T0")
        ⟨some "alice", some (some ⟨some "House", none⟩), some "new"⟩
        ⟨[], []⟩).state.bucket (s3KeyFor "alice" "p-9")
      = some (serializeJson emptyFloorspaceJson) ∧
    (createUpdateItem "alice" "p-9" ((⟨some "House", none⟩ : ProjectInput).name.getD "")
        (descValue (⟨some "House", none⟩ : ProjectInput).description)
        ((fun _ : Nat => "T0") 0) ((fun _ : Nat => "T0") 1)).createdAt
      = (createUpdateItem "alice" "p-9" ((⟨some "House", none⟩ : ProjectInput).name.getD "")
          (descValue (⟨some "House", none⟩ : ProjectInput).description)
          ((fun _ : Nat => "T0") 0) ((fun _ : Nat => "T0") 1)).updatedAt ∧
    (createUpdateHandler "u-1" (fun _ => "T0")
        ⟨some "bob", some (some ⟨some "Cabin", none⟩), some "fresh-id"⟩
        ⟨[], []⟩).response.statusCode = 201 := by
  have ha := (c2_creation_paths "p-9" (fun _ => "T0") "alice" (by decide)
    ⟨some "House", none⟩ (by decide) ⟨[], []⟩).1 (some "new") (Or.inr rfl)
  have hb := (c2_creation_paths "u-1" (fun _ => "T0") "bob" (by decide)
    ⟨some "Cabin", none⟩ (by decide) ⟨[], []⟩).2.1 "fresh-id" (by decide) (by decide) rfl
  exact ⟨ha.1, ha.2.2.2.2.1, ha.2.2.2.2.2 rfl, hb.1⟩

/-- The derived blob path is never the empty string. -/
theorem s3KeyFor_ne_empty (u i : String) : s3KeyFor u i ≠ "" := by
  intro hcon
  have hlen := congrArg String.length hcon
  simp only [s3KeyFor, String.length_append] at hlen
  have h1 : ("/" : String).length = 1 := rfl
  have h2 : ("/floorspace.json" : String).length = 16 := rfl
  have h0 : ("" : String).length = 0 := rfl
  rw [h1, h2, h0] at hlen
  omega

/-- On a record carrying the derived key, the `s3Key || derived`
fallback of the three lookup handlers resolves to the derived key. -/
theorem effectiveS3Key_of_derived (r : Project) (u i : String)
    (hk : r.s3Key = s3KeyFor u i) : effectiveS3Key r u i = s3KeyFor u i := by
  simp [effectiveS3Key, hk, s3KeyFor_ne_empty u i]

/-- C8: the blob path is one deterministic string across the four
record-touching operations: it equals owner/recordId/floorspace.json;
every record written by create-or-update carries that derived key and
the creation blob write targets it; and get-one, delete and upload-blob
applied to a record carrying the derived key direct their S3 call at
exactly that key. -/
theorem c8_blob_path_determinism :
    (∀ u i, s3KeyFor u i = u ++ "/" ++ i ++ "/floorspace.json") ∧
    (∀ uuid clock ev st item,
        Effect.dynamoPutE item ∈ (createUpdateHandler uuid clock ev st).effects →
        item.s3Key = s3KeyFor item.userId item.projectId) ∧
    (∀ uuid clock ev st k b,
        Effect.s3PutE k b ∈ (createUpdateHandler uuid clock ev st).effects →
        ∃ i, k = s3KeyFor (ev.authSub.getD "") i ∧ b = serializeJson emptyFloorspaceJson) ∧
    (∀ r u i, r.s3Key = s3KeyFor u i → effectiveS3Key r u i = s3KeyFor u i) ∧
    (∀ presign u pid st r, u ≠ "" → pid ≠ "" → dynamoGet st.table u pid = some r →
        r.s3Key = s3KeyFor u pid →
        (getProjectHandler presign ⟨some pid, some u⟩ st).effects
          = [.dynamoGetE u pid, .s3PresignE (s3KeyFor u pid)]) ∧
    (∀ u pid st r, u ≠ "" → pid ≠ "" → dynamoGet st.table u pid = some r →
        r.s3Key = s3KeyFor u pid →
        (deleteProjectHandler ⟨some pid, some u⟩ st).effects
          = [.dynamoGetE u pid, .s3DeleteE (s3KeyFor u pid), .dynamoDeleteE u pid]) ∧
    (∀ now u pid st r j v, u ≠ "" → pid ≠ "" →
        jsonField? j "floorspaceJson" = some v → jsTruthy v = true →
        dynamoGet st.table u pid = some r → r.s3Key = s3KeyFor u pid →
        (uploadFloorspaceHandler now ⟨some pid, some u, some (some j)⟩ st).effects
          = [.dynamoGetE u pid, .s3PutE (s3KeyFor u pid) (serializeJson v),
             .dynamoUpdateE u pid now]) := by
  refine ⟨fun u i => rfl, ?_, ?_, effectiveS3Key_of_derived, ?_, ?_, ?_⟩
  · intro uuid clock ev st item hmem
    simp only [createUpdateHandler] at hmem
    split at hmem
    · simp at hmem
    · split at hmem
      · simp at hmem
      · simp at hmem
      · split at hmem
        · simp at hmem
        · split at hmem
          · simp [createUpdateFinish, createUpdateItem] at hmem
            subst hmem
            rfl
          · split at hmem
            · split at hmem
              · simp at hmem
              · simp [createUpdateFinish, createUpdateItem] at hmem
                subst hmem
                rfl
            · simp [createUpdateFinish, createUpdateItem] at hmem
              subst hmem
              rfl
  · intro uuid clock ev st k b hmem
    simp only [createUpdateHandler] at hmem
    split at hmem
    · simp at hmem
    · split at hmem
      · simp at hmem
      · simp at hmem
      · split at hmem
        · simp at hmem
        · split at hmem
          · simp [createUpdateFinish, createUpdateItem] at hmem
            exact ⟨uuid, hmem.1, hmem.2⟩
          · split at hmem
            · split at hmem
              · simp at hmem
              · simp [createUpdateFinish, createUpdateItem] at hmem
            · simp [createUpdateFinish, createUpdateItem] at hmem
              exact ⟨ev.pathProjectId.getD "", hmem.1, hmem.2⟩
  · intro presign u pid st r hu hp h hk
    obtain ⟨hru, -⟩ := dynamoGet_some_userId h
    have hfx := effectiveS3Key_of_derived r u pid hk
    simp [getProjectHandler, jsStrFalsy, hu, hp, h, hru, hfx]
  · intro u pid st r hu hp h hk
    obtain ⟨hru, -⟩ := dynamoGet_some_userId h
    have hfx := effectiveS3Key_of_derived r u pid hk
    simp [deleteProjectHandler, jsStrFalsy, hu, hp, h, hru, hfx]
  · intro now u pid st r j v hu hp hf hv h hk
    obtain ⟨hru, -⟩ := dynamoGet_some_userId h
    have hfx := effectiveS3Key_of_derived r u pid hk
    simp [uploadFloorspaceHandler, jsStrFalsy, hu, hp, hf, jsTruthyOpt, hv, h, hru, hfx]

/-- C8 witness: the four operations on a concrete record all address
alice/p1/floorspace.json. -/
theorem c8_blob_path_witness :
    s3KeyFor "alice" "p1" = "alice" ++ "/" ++ "p1" ++ "/floorspace.json" ∧
    effectiveS3Key ⟨"alice", "p1", "House", "", "T0", "T0", s3KeyFor "alice" "p1"⟩ "alice" "p1"
      = s3KeyFor "alice" "p1" ∧
    (deleteProjectHandler ⟨some "p1", some "alice"⟩
        ⟨[⟨"alice", "p1", "House", "", "T0", "T0", s3KeyFor "alice" "p1"⟩], []⟩).effects
      = [.dynamoGetE "alice" "p1", .s3DeleteE (s3KeyFor "alice" "p1"),
         .dynamoDeleteE "alice" "p1"] ∧
    (getProjectHandler (fun k => k) ⟨some "p1", some "alice"⟩
        ⟨[⟨"alice", "p1", "House", "", "T0", "T0", s3KeyFor "alice" "p1"⟩], []⟩).effects
      = [.dynamoGetE "alice" "p1", .s3PresignE (s3KeyFor "alice" "p1")] := by
  refine ⟨c8_blob_path_determinism.1 "alice" "p1",
    c8_blob_path_determinism.2.2.2.1 ⟨"alice", "p1", "House", "", "T0", "T0", s3KeyFor "alice" "p1"⟩
      "alice" "p1" rfl,
    c8_blob_path_determinism.2.2.2.2.2.1 "alice" "p1"
      ⟨[⟨"alice", "p1", "House", "", "T0", "T0", s3KeyFor "alice" "p1"⟩], []⟩
      ⟨"alice", "p1", "House", "", "T0", "T0", s3KeyFor "alice" "p1"⟩
      (by decide) (by decide) rfl rfl,
    c8_blob_path_determinism.2.2.2.2.1 (fun k => k) "alice" "p1"
      ⟨[⟨"alice", "p1", "House", "", "T0", "T0", s3KeyFor "alice" "p1"⟩], []⟩
      ⟨"alice", "p1", "House", "", "T0", "T0", s3KeyFor "alice" "p1"⟩
      (by decide) (by decide) rfl rfl⟩
